import Mathlib

/-!
Verification development for the campaign upsert resolver of the
AutocreateDeploy repository (`autocreate/unified_db.py` and the
`budget_testing` endpoint that drives it).

Modelling conventions:
* Python scalar values are modelled by `Value` (numbers as integers; this
  component never computes with fractional parts on any path exercised here).
* A Python dict (both a request payload and a stored table row) is an
  association list `Row` with the usual dict semantics: lookup takes the
  first binding, assignment replaces in place or appends, `pop` removes.
  Real dicts never hold duplicate keys; theorems that need this assume
  `Nodup` on the key list.
* The Supabase table is a `DB`: a list of rows plus the next serial id.
  Write operations (`update`/`insert`) may raise; exceptions are injected
  through a fault script `faults : List (Option String)` — the head entry
  is consumed by the next write, `some e` meaning that write raises an
  exception whose `str(e)` is `e` (e.g. a uniqueness-constraint violation
  on insert).  Reads are modelled as never raising.
* `jwt.decode` is an external library call; it is abstracted as a
  parameter `jwtDecode : String → JwtOutcome` distinguishing a decoded
  payload, an `ExpiredSignatureError` and an `InvalidTokenError`.
-/

namespace AutoCreate

/-- A Python scalar value. -/
inductive Value where
  | null : Value
  | str : String → Value
  | int : Int → Value
  | bool : Bool → Value
deriving DecidableEq, Repr

/-- Python truthiness of a `Value`. -/
def Value.truthy : Value → Bool
  | .null => false
  | .str s => s != ""
  | .int n => n != 0
  | .bool b => b

/-- `isinstance(v, str)`. -/
def Value.isStr : Value → Bool
  | .str _ => true
  | _ => false

/-- `isinstance(v, int)` (Python `bool` is a subclass of `int`). -/
def Value.isInt : Value → Bool
  | .int _ => true
  | .bool _ => true
  | _ => false

/-- Python `str(v)`. -/
def pyStr : Value → String
  | .null => "None"
  | .str s => s
  | .int n => toString n
  | .bool b => if b then "True" else "False"

/-- A Python dict / a stored table row: an association list of fields. -/
abbrev Row := List (String × Value)

/-- Dict lookup: the first binding of the key, if any. -/
def rowGet : Row → String → Option Value
  | [], _ => none
  | (k', v) :: rest, k => if k' = k then some v else rowGet rest k

/-- Dict assignment `d[k] = v`: replace the first binding in place, else append. -/
def rowSet : Row → String → Value → Row
  | [], k, v => [(k, v)]
  | (k', v') :: rest, k, v =>
      if k' = k then (k, v) :: rest else (k', v') :: rowSet rest k v

/-- Dict `d.pop(k, None)`: the removed value (if present) and the remaining dict. -/
def rowPop : Row → String → Option Value × Row
  | [], _ => (none, [])
  | (k', v') :: rest, k =>
      if k' = k then (some v', rest)
      else
        let p := rowPop rest k
        (p.1, (k', v') :: p.2)

/-- Apply an update payload to a row: set every field of `d` in order
(the semantics of the store's `update(d)` on one matched row, and of the
Python dict-merge `{base..., **d}` when `r` is the base). -/
def applyData (r : Row) (d : Row) : Row :=
  d.foldl (fun acc kv => rowSet acc kv.1 kv.2) r

/-- Fold digits into a natural number. -/
def digitsToNat (cs : List Char) : Nat :=
  cs.foldl (fun a c => a * 10 + (c.toNat - 48)) 0

/-- Python `str.strip()`: drop leading and trailing whitespace. -/
def pyStripChars (cs : List Char) : List Char :=
  ((cs.dropWhile Char.isWhitespace).reverse.dropWhile Char.isWhitespace).reverse

/-- Python `int(s)` on a string: strip whitespace, optional sign, decimal
digits; anything else raises `ValueError` (modelled as `none`). -/
def pyIntOfString (s : String) : Option Int :=
  match pyStripChars s.data with
  | [] => none
  | c :: rest =>
      if c = '-' then
        if rest.isEmpty then none
        else if rest.all Char.isDigit then some (-(digitsToNat rest : Int)) else none
      else if c = '+' then
        if rest.isEmpty then none
        else if rest.all Char.isDigit then some (digitsToNat rest) else none
      else if (c :: rest).all Char.isDigit then some (digitsToNat (c :: rest)) else none

/-- The backing store: the `auto_create` table, the next serial id, and the
fault script injecting exceptions into write operations. -/
structure DB where
  rows : List Row
  nextId : Int
  faults : List (Option String)
deriving DecidableEq, Repr

/-- Consume the next entry of the fault script (no entry: the write succeeds). -/
def DB.takeFault (db : DB) : Option String × DB :=
  match db.faults with
  | [] => (none, db)
  | f :: rest => (f, { db with faults := rest })

/-- A conjunction of `.eq(k, v)` filters against a row. -/
def rowMatches (r : Row) (filters : List (String × Value)) : Bool :=
  filters.all fun kv => rowGet r kv.1 == some kv.2

/-- `table.select(...).eq(...)...execute().data`: the matching rows. -/
def dbSelect (db : DB) (filters : List (String × Value)) : List Row :=
  db.rows.filter fun r => rowMatches r filters

/-- `table.update(data).eq(...)...execute()`: update every matching row;
return the updated matched rows (`response.data`) and the new store, or
raise per the fault script. -/
def dbUpdate (db : DB) (data : Row) (filters : List (String × Value)) :
    Except (String × DB) (List Row × DB) :=
  match db.takeFault with
  | (some e, db1) => .error (e, db1)
  | (none, db1) =>
      let updated := (db1.rows.filter fun r => rowMatches r filters).map
        fun r => applyData r data
      let newRows := db1.rows.map fun r =>
        if rowMatches r filters then applyData r data else r
      .ok (updated, { db1 with rows := newRows })

/-- `table.insert(data).execute()`: assign the serial id, append the row,
return it (`response.data`), or raise per the fault script. -/
def dbInsert (db : DB) (data : Row) : Except (String × DB) (List Row × DB) :=
  match db.takeFault with
  | (some e, db1) => .error (e, db1)
  | (none, db1) =>
      let row := rowSet data "id" (.int db1.nextId)
      .ok ([row], { db1 with rows := db1.rows ++ [row], nextId := db1.nextId + 1 })

/-- The dict returned by `handle_campaign_save` / `save_assets_to_campaign`;
`Option` fields model key presence in the Python dict. -/
structure SaveResult where
  success : Bool
  campaign_id : Option Value := none
  is_update : Option Bool := none
  is_new_version : Option Bool := none
  version : Option Value := none
  message : Option String := none
  error : Option String := none
deriving DecidableEq, Repr

/-- The campaign_id coercion at the top of `handle_campaign_save` (and,
identically, of `get_active_campaign`): a truthy string is converted with
`int(...)`, a failed conversion becomes `None`; everything else is kept. -/
def coerce_campaign_id (cid : Value) : Value :=
  match cid with
  | .str s =>
      if s != "" then
        match pyIntOfString s with
        | some n => .int n
        | none => .null
      else .str s
  | v => v

/-- The `assets_data = data.pop('assets', None) or data.pop('selected_asset_ids', None)`
step: returns the extracted assets value (Python `or` keeps the first
operand when truthy) and the stripped payload. -/
def stripAssets (data : Row) : Value × Row :=
  let p1 := rowPop data "assets"
  let a1 := p1.1.getD .null
  if a1.truthy then (a1, p1.2)
  else
    let p2 := rowPop p1.2 "selected_asset_ids"
    (p2.1.getD .null, p2.2)

/-- Python `json.dumps` on a scalar (only reached on non-string input in
the source, where it actually raises `NameError` because `json` is never
imported — see `save_assets_to_campaign`). -/
def jsonDumps : Value → String
  | .null => "null"
  | .str s => "\"" ++ s ++ "\""
  | .int n => toString n
  | .bool b => if b then "true" else "false"

/-- `save_assets_to_campaign(supabase, user_id, assets_data, campaign_id)`.
Note: the source module uses `json.dumps` without importing `json`, so a
non-string `assets_data` raises `NameError`, caught by the function's own
`except` into a failure result. -/
def save_assets_to_campaign (db : DB) (now : String) (user_id : String)
    (assets_data : Value) (campaign_id : Value) : SaveResult × DB :=
  match assets_data with
  | .str s =>
      match dbUpdate db [("assets", .str s), ("updated_at", .str now)]
          [("id", campaign_id), ("user_id", .str user_id)] with
      | .error (e, db1) => ({ success := false, error := some e }, db1)
      | .ok (rows, db1) =>
          match rows with
          | _ :: _ => ({ success := true, message := some "Assets saved successfully" }, db1)
          | [] => ({ success := false, error := some "Campaign not found or access denied" }, db1)
  | _ => ({ success := false, error := some "name 'json' is not defined" }, db)

/-- The explicit-campaign_id branch of `handle_campaign_save` (the guard
`campaign_id and isinstance(campaign_id, int)` already passed). -/
def explicitUpdate (db : DB) (cu : String) (data2 : Row) (assets_data : Value)
    (cid : Value) (now : String) : SaveResult × DB :=
  match dbSelect db [("id", cid), ("user_id", .str cu)] with
  | [] => ({ success := false, error := some "Campaign not found or access denied" }, db)
  | _ :: _ =>
      let d := rowSet data2 "updated_at" (.str now)
      match dbUpdate db d [("id", cid), ("user_id", .str cu)] with
      | .error (e, db1) => ({ success := false, error := some e }, db1)
      | .ok (rows, db1) =>
          if !rows.isEmpty && assets_data.truthy then
            let ar := save_assets_to_campaign db1 now cu assets_data cid
            if ar.1.success then
              ({ success := true, campaign_id := some cid, is_update := some true }, ar.2)
            else ar
          else
            ({ success := true, campaign_id := some cid, is_update := some true }, db1)

/-- The update-the-active-campaign branch of `handle_campaign_save`,
given the first row returned by the active-campaign lookup.  A missing
`id` key would raise `KeyError`, caught by the function's `except`. -/
def activeUpdate (db : DB) (cu : String) (data2 : Row) (now : String) (r : Row) :
    SaveResult × DB :=
  match rowGet r "id" with
  | none => ({ success := false, error := some "KeyError: id" }, db)
  | some acid =>
      let ver := (rowGet r "version").getD (.int 1)
      let d := rowSet (rowSet data2 "updated_at" (.str now)) "version" ver
      match dbUpdate db d [("id", acid), ("user_id", .str cu)] with
      | .error (e, db1) => ({ success := false, error := some e }, db1)
      | .ok (rows, db1) =>
          match rows with
          | [] => ({ success := false, error := some "Failed to update active campaign" }, db1)
          | _ :: _ =>
              ({ success := true, campaign_id := some acid, is_update := some true,
                 is_new_version := some false, version := some ver }, db1)

/-- The `campaign_data` dict built by the create branch: the defaulted base
merged with the payload (`**data`), then `budget_amount`/`campaign_duration`
filled in when absent. -/
def newCampaignData (cu : String) (data2 : Row) (now : String) : Row :=
  let base : Row := [("user_id", .str cu), ("is_active", .bool true), ("version", .int 1),
                     ("created_at", .str now), ("updated_at", .str now)]
  let cd0 := applyData base data2
  let cd1 := if (rowGet cd0 "budget_amount").isNone then rowSet cd0 "budget_amount" (.int 0) else cd0
  if (rowGet cd1 "campaign_duration").isNone then rowSet cd1 "campaign_duration" (.int 1) else cd1

/-- The create-a-first-campaign branch of `handle_campaign_save`. -/
def createCampaign (db : DB) (cu : String) (data2 : Row) (now : String) :
    SaveResult × DB :=
  match dbInsert db (newCampaignData cu data2 now) with
  | .error (e, db1) => ({ success := false, error := some e }, db1)
  | .ok (rows, db1) =>
      match rows with
      | [] => ({ success := false, error := some "Failed to create campaign" }, db1)
      | row :: _ =>
          match rowGet row "id" with
          | none => ({ success := false, error := some "KeyError: id" }, db1)
          | some nid =>
              ({ success := true, campaign_id := some nid, is_update := some false,
                 is_new_version := some false, version := some (.int 1) }, db1)

/-- The no-valid-campaign_id path of `handle_campaign_save`: look up the
active campaign of the user; update it if found, else create the first one. -/
def noIdSave (db : DB) (cu : String) (data2 : Row) (now : String) : SaveResult × DB :=
  match dbSelect db [("user_id", .str cu), ("is_active", .bool true)] with
  | r :: _ => activeUpdate db cu data2 now r
  | [] => createCampaign db cu data2 now

/-- `handle_campaign_save(supabase, current_user, data, campaign_id)` from
`autocreate/unified_db.py`; `now` is the value of `datetime.now().isoformat()`. -/
def handle_campaign_save (db : DB) (current_user : String) (data : Row)
    (campaign_id : Value) (now : String) : SaveResult × DB :=
  let cid := coerce_campaign_id campaign_id
  let sa := stripAssets data
  if cid.truthy && cid.isInt then
    explicitUpdate db current_user sa.2 sa.1 cid now
  else
    noIdSave db current_user sa.2 now

/-- The dict returned by `get_active_campaign`. -/
structure GetResult where
  success : Bool
  campaign : Option Row := none
  error : Option String := none
deriving DecidableEq, Repr

/-- `get_active_campaign(supabase, current_user, campaign_id)`: the
companion read; its id coercion code is byte-for-byte the same logic as in
`handle_campaign_save`, so `coerce_campaign_id` is shared. -/
def get_active_campaign (db : DB) (current_user : String) (campaign_id : Value) :
    GetResult :=
  let cid := coerce_campaign_id campaign_id
  let rows :=
    if cid.truthy && cid.isInt then
      dbSelect db [("id", cid), ("user_id", .str current_user)]
    else
      dbSelect db [("user_id", .str current_user), ("is_active", .bool true)]
  match rows with
  | r :: _ => { success := true, campaign := some r }
  | [] => { success := true, campaign := none }

/-- Outcome of the external `jwt.decode(token, SECRET_KEY, algorithms=["HS256"])`. -/
inductive JwtOutcome where
  | ok : Row → JwtOutcome
  | expired : JwtOutcome
  | invalid : String → JwtOutcome

/-- `decode_jwt_token(token)` from `autocreate/unified_db.py`.  The inner
`ValueError`s ("Empty token", "No user_id in token payload") are raised
inside the `try`, so the generic `except Exception` rewraps them as
"Failed to decode token: ...". -/
def decode_jwt_token (jwtDecode : String → JwtOutcome) (token : Value) :
    Except String String :=
  let t0 : String :=
    match token with
    | .str s => s
    | v => if v.truthy then pyStr v else ""
  let t := String.mk (pyStripChars t0.data)
  if t = "" then .error "Failed to decode token: Empty token"
  else
    match jwtDecode t with
    | .expired => .error "Token has expired. Please login again."
    | .invalid msg => .error ("Invalid token: " ++ msg)
    | .ok payload =>
        match rowGet payload "user_id" with
        | none => .error "Failed to decode token: No user_id in token payload"
        | some uid =>
            if uid.truthy then .ok (pyStr uid)
            else .error "Failed to decode token: No user_id in token payload"

/-- Python `float(v)` (numeric values are modelled as integers; the claims
never exercise fractional budgets). Failure models the raised exception. -/
def pyFloat : Value → Except String Value
  | .int n => .ok (.int n)
  | .bool b => .ok (.int (if b then 1 else 0))
  | .str s =>
      match pyIntOfString s with
      | some n => .ok (.int n)
      | none => .error ("could not convert string to float: " ++ s)
  | .null => .error "float() argument must be a string or a real number, not NoneType"

/-- Python `int(v)` on a request value. -/
def pyIntFn : Value → Except String Value
  | .int n => .ok (.int n)
  | .bool b => .ok (.int (if b then 1 else 0))
  | .str s =>
      match pyIntOfString s with
      | some n => .ok (.int n)
      | none => .error ("invalid literal for int() with base 10: " ++ s)
  | .null => .error "int() argument cannot be NoneType"

/-- The transport-level response of the `/api/budget-testing/save` handler
(the `projections` payload of the 200 response carries no store state and
is not modelled). -/
structure ApiResponse where
  status : Nat
  success : Option Bool := none
  error : Option String := none
  campaign_id : Option Value := none
deriving DecidableEq, Repr

/-- `save_budget_testing()` from
`autocreate/api/AutoCreate/budget_testing.py`: the POST handler that
resolves the identity token (`data.get("user_id")` holds the JWT), then
drives `handle_campaign_save` and re-reads the saved campaign.  Any
exception (key errors, conversion errors, the `.get` on a `None`
campaign) is caught into a 500 response. -/
def save_budget_testing (jwtDecode : String → JwtOutcome) (db : DB) (now : String)
    (reqData : Row) : ApiResponse × DB :=
  let token := (rowGet reqData "user_id").getD .null
  if !token.truthy then ({ status := 401, error := some "Missing auth token" }, db)
  else
    match decode_jwt_token jwtDecode token with
    | .error e => ({ status := 500, error := some e }, db)
    | .ok user_id =>
        match rowGet reqData "budget_type" with
        | none => ({ status := 500, error := some "KeyError: budget_type" }, db)
        | some budget_type =>
        match rowGet reqData "budget_amount" with
        | none => ({ status := 500, error := some "KeyError: budget_amount" }, db)
        | some ba0 =>
        match pyFloat ba0 with
        | .error e => ({ status := 500, error := some e }, db)
        | .ok budget_amount =>
        match rowGet reqData "campaign_duration" with
        | none => ({ status := 500, error := some "KeyError: campaign_duration" }, db)
        | some cd0 =>
        match pyIntFn cd0 with
        | .error e => ({ status := 500, error := some e }, db)
        | .ok campaign_duration =>
        match rowGet reqData "selected_tests" with
        | none => ({ status := 500, error := some "KeyError: selected_tests" }, db)
        | some selected_tests =>
        let budget_data : Row :=
          [("budget_type", budget_type), ("budget_amount", budget_amount),
           ("campaign_duration", campaign_duration), ("selected_tests", selected_tests),
           ("messaging_tone", (rowGet reqData "messaging_tone").getD .null)]
        let campaign_id := (rowGet reqData "campaign_id").getD .null
        let sr := handle_campaign_save db user_id budget_data campaign_id now
        if !sr.1.success then
          ({ status := 500, error := sr.1.error }, sr.2)
        else
          match sr.1.campaign_id with
          | none => ({ status := 500, error := some "KeyError: campaign_id" }, sr.2)
          | some scid =>
              match (get_active_campaign sr.2 user_id scid).campaign with
              | none =>
                  ({ status := 500,
                     error := some "AttributeError: NoneType object has no attribute get" }, sr.2)
              | some _ =>
                  ({ status := 200, success := some true, campaign_id := some scid }, sr.2)

/-! ### Lemmas about the dict operations -/

theorem rowGet_rowSet_self (r : Row) (k : String) (v : Value) :
    rowGet (rowSet r k v) k = some v := by
  induction r with
  | nil => simp [rowSet, rowGet]
  | cons kv rest ih =>
      obtain ⟨k1, v1⟩ := kv
      by_cases h : k1 = k
      · simp [rowSet, h, rowGet]
      · simp [rowSet, h, rowGet, ih]

theorem rowGet_rowSet_ne (r : Row) (k k' : String) (v : Value) (h : k' ≠ k) :
    rowGet (rowSet r k v) k' = rowGet r k' := by
  induction r with
  | nil => simp [rowSet, rowGet, Ne.symm h]
  | cons kv rest ih =>
      obtain ⟨k1, v1⟩ := kv
      by_cases hk : k1 = k
      · subst hk
        simp [rowSet, rowGet, Ne.symm h]
      · by_cases hk' : k1 = k'
        · simp [rowSet, hk, rowGet, hk', h]
        · simp [rowSet, hk, rowGet, hk', ih]

theorem rowGet_eq_none_iff (r : Row) (k : String) :
    rowGet r k = none ↔ k ∉ r.map Prod.fst := by
  induction r with
  | nil => simp [rowGet]
  | cons kv rest ih =>
      obtain ⟨k1, v1⟩ := kv
      by_cases h : k1 = k
      · subst h
        simp [rowGet]
      · simp [rowGet, h, ih, Ne.symm h]

theorem keys_rowSet (r : Row) (k : String) (v : Value) :
    (rowSet r k v).map Prod.fst =
      if k ∈ r.map Prod.fst then r.map Prod.fst else r.map Prod.fst ++ [k] := by
  induction r with
  | nil => simp [rowSet]
  | cons kv rest ih =>
      obtain ⟨k1, v1⟩ := kv
      by_cases hk : k1 = k
      · subst hk
        simp [rowSet]
      · by_cases hm : k ∈ rest.map Prod.fst
        · simp [rowSet, hk, Ne.symm hk, hm, ih]
        · simp [rowSet, hk, Ne.symm hk, hm, ih]

theorem mem_keys_rowSet (r : Row) (k k' : String) (v : Value)
    (h : k' ∈ (rowSet r k v).map Prod.fst) : k' ∈ r.map Prod.fst ∨ k' = k := by
  rw [keys_rowSet] at h
  by_cases hm : k ∈ r.map Prod.fst
  · rw [if_pos hm] at h
    exact Or.inl h
  · rw [if_neg hm] at h
    rcases List.mem_append.1 h with h' | h'
    · exact Or.inl h'
    · exact Or.inr (List.mem_singleton.1 h')

theorem keys_rowSet_nodup (r : Row) (k : String) (v : Value)
    (h : (r.map Prod.fst).Nodup) : ((rowSet r k v).map Prod.fst).Nodup := by
  rw [keys_rowSet]
  by_cases hm : k ∈ r.map Prod.fst
  · rwa [if_pos hm]
  · rw [if_neg hm]
    simp only [List.nodup_append, List.nodup_singleton, List.disjoint_singleton]
    exact ⟨h, True.intro, hm⟩

theorem applyData_get_none (d : Row) (r : Row) (k : String)
    (h : rowGet d k = none) : rowGet (applyData r d) k = rowGet r k := by
  induction d generalizing r with
  | nil => simp [applyData]
  | cons kv rest ih =>
      obtain ⟨k1, v1⟩ := kv
      by_cases hk : k1 = k
      · subst hk
        simp [rowGet] at h
      · have hrest : rowGet rest k = none := by
          simpa [rowGet, hk] using h
        have happ : applyData r ((k1, v1) :: rest) = applyData (rowSet r k1 v1) rest := by
          simp [applyData]
        rw [happ, ih _ hrest, rowGet_rowSet_ne _ _ _ _ (Ne.symm hk)]

theorem applyData_get_some (d : Row) (r : Row) (k : String) (v : Value)
    (hnd : (d.map Prod.fst).Nodup) (h : rowGet d k = some v) :
    rowGet (applyData r d) k = some v := by
  induction d generalizing r with
  | nil => simp [rowGet] at h
  | cons kv rest ih =>
      obtain ⟨k1, v1⟩ := kv
      simp only [List.map_cons, List.nodup_cons] at hnd
      have happ : applyData r ((k1, v1) :: rest) = applyData (rowSet r k1 v1) rest := by
        simp [applyData]
      by_cases hk : k1 = k
      · subst hk
        have hv : v = v1 := by
          simp [rowGet] at h
          exact h.symm
        subst hv
        have hrest : rowGet rest k1 = none := (rowGet_eq_none_iff _ _).2 hnd.1
        rw [happ, applyData_get_none _ _ _ hrest, rowGet_rowSet_self]
      · have hrest : rowGet rest k = some v := by
          simpa [rowGet, hk] using h
        rw [happ, ih _ hnd.2 hrest]

theorem rowPop_fst (r : Row) (k : String) : (rowPop r k).1 = rowGet r k := by
  induction r with
  | nil => simp [rowPop, rowGet]
  | cons kv rest ih =>
      obtain ⟨k1, v1⟩ := kv
      by_cases h : k1 = k
      · simp [rowPop, h, rowGet]
      · simp [rowPop, h, rowGet, ih]

theorem rowPop_get_ne (r : Row) (k k' : String) (h : k' ≠ k) :
    rowGet (rowPop r k).2 k' = rowGet r k' := by
  induction r with
  | nil => simp [rowPop]
  | cons kv rest ih =>
      obtain ⟨k1, v1⟩ := kv
      by_cases hk : k1 = k
      · subst hk
        simp [rowPop, rowGet, Ne.symm h]
      · by_cases hk' : k1 = k'
        · simp [rowPop, hk, rowGet, hk', h]
        · simp [rowPop, hk, rowGet, hk', ih]

theorem rowPop_snd_sublist (r : Row) (k : String) : (rowPop r k).2.Sublist r := by
  induction r with
  | nil => simp [rowPop]
  | cons kv rest ih =>
      obtain ⟨k1, v1⟩ := kv
      by_cases h : k1 = k
      · simp only [rowPop, if_pos h]
        exact (List.sublist_cons_self (k1, v1) rest)
      · simp only [rowPop, if_neg h]
        exact List.Sublist.cons₂ (k1, v1) ih

theorem rowPop_get_self (r : Row) (k : String) (hnd : (r.map Prod.fst).Nodup) :
    rowGet (rowPop r k).2 k = none := by
  induction r with
  | nil => simp [rowPop, rowGet]
  | cons kv rest ih =>
      obtain ⟨k1, v1⟩ := kv
      simp only [List.map_cons, List.nodup_cons] at hnd
      by_cases h : k1 = k
      · subst h
        simp only [rowPop, if_pos rfl]
        exact (rowGet_eq_none_iff _ _).2 hnd.1
      · simp [rowPop, h, rowGet, ih hnd.2]

theorem stripAssets_get_ne (d : Row) (k : String)
    (h1 : k ≠ "assets") (h2 : k ≠ "selected_asset_ids") :
    rowGet (stripAssets d).2 k = rowGet d k := by
  unfold stripAssets
  by_cases ht : ((rowPop d "assets").1.getD Value.null).truthy
  · simp only [ht, if_pos rfl]
    exact rowPop_get_ne d "assets" k h1
  · simp only [ht]
    simp only [Bool.false_eq_true, if_false]
    rw [rowPop_get_ne _ _ _ h2, rowPop_get_ne _ _ _ h1]

theorem stripAssets_snd_sublist (d : Row) : (stripAssets d).2.Sublist d := by
  unfold stripAssets
  by_cases ht : ((rowPop d "assets").1.getD Value.null).truthy
  · simp only [ht, if_pos rfl]
    exact rowPop_snd_sublist d "assets"
  · simp only [ht, Bool.false_eq_true, if_false]
    exact ((rowPop_snd_sublist _ "selected_asset_ids").trans (rowPop_snd_sublist d "assets"))

theorem stripAssets_keys_nodup (d : Row) (hnd : (d.map Prod.fst).Nodup) :
    ((stripAssets d).2.map Prod.fst).Nodup :=
  hnd.sublist ((stripAssets_snd_sublist d).map Prod.fst)

theorem stripAssets_get_of_none (d : Row) (k : String) (h : rowGet d k = none) :
    rowGet (stripAssets d).2 k = none := by
  rw [rowGet_eq_none_iff] at h ⊢
  intro hm
  exact h (((stripAssets_snd_sublist d).map Prod.fst).mem hm)

theorem stripAssets_get_assets (d : Row) (hnd : (d.map Prod.fst).Nodup) :
    rowGet (stripAssets d).2 "assets" = none := by
  unfold stripAssets
  by_cases ht : ((rowPop d "assets").1.getD Value.null).truthy
  · simp only [ht, if_pos rfl]
    exact rowPop_get_self d "assets" hnd
  · simp only [ht, Bool.false_eq_true, if_false]
    rw [rowPop_get_ne _ _ _ (by simp)]
    exact rowPop_get_self d "assets" hnd

theorem stripAssets_get_sel (d : Row) (hnd : (d.map Prod.fst).Nodup)
    (h : ((rowGet d "assets").getD Value.null).truthy = false) :
    rowGet (stripAssets d).2 "selected_asset_ids" = none := by
  unfold stripAssets
  dsimp only
  rw [rowPop_fst]
  simp only [h, Bool.false_eq_true, if_false]
  apply rowPop_get_self
  exact hnd.sublist ((rowPop_snd_sublist d "assets").map Prod.fst)

/-! ### Branch-reduction lemmas for the resolver -/

theorem coerce_falsy (cid : Value) (h : cid.truthy = false) :
    coerce_campaign_id cid = cid := by
  cases cid with
  | str s =>
      simp only [Value.truthy, bne_iff_ne, ne_eq, Decidable.not_not] at h
      simp [coerce_campaign_id, h]
  | _ => rfl

theorem handle_falsy (db : DB) (u : String) (data : Row) (cid : Value) (now : String)
    (h : cid.truthy = false) :
    handle_campaign_save db u data cid now = noIdSave db u (stripAssets data).2 now := by
  unfold handle_campaign_save
  simp only [coerce_falsy cid h, h, Bool.false_and, Bool.false_eq_true, if_false]

theorem handle_guard_false (db : DB) (u : String) (data : Row) (cid : Value) (now : String)
    (h : ((coerce_campaign_id cid).truthy && (coerce_campaign_id cid).isInt) = false) :
    handle_campaign_save db u data cid now = noIdSave db u (stripAssets data).2 now := by
  unfold handle_campaign_save
  simp only [h, Bool.false_eq_true, if_false]

theorem handle_null (db : DB) (u : String) (data : Row) (now : String) :
    handle_campaign_save db u data Value.null now = noIdSave db u (stripAssets data).2 now :=
  handle_falsy db u data Value.null now rfl

theorem handle_int_ne_zero (db : DB) (u : String) (data : Row) (n : Int) (now : String)
    (h : n ≠ 0) :
    handle_campaign_save db u data (Value.int n) now =
      explicitUpdate db u (stripAssets data).2 (stripAssets data).1 (Value.int n) now := by
  unfold handle_campaign_save
  have ht : (Value.int n).truthy = true := by
    simp [Value.truthy, h]
  simp [coerce_campaign_id, ht, Value.isInt]

theorem noIdSave_active (db : DB) (u : String) (d : Row) (now : String)
    (r : Row) (rest : List Row)
    (hact : dbSelect db [("user_id", Value.str u), ("is_active", Value.bool true)] = r :: rest) :
    noIdSave db u d now = activeUpdate db u d now r := by
  unfold noIdSave
  rw [hact]

theorem noIdSave_create (db : DB) (u : String) (d : Row) (now : String)
    (hact : dbSelect db [("user_id", Value.str u), ("is_active", Value.bool true)] = []) :
    noIdSave db u d now = createCampaign db u d now := by
  unfold noIdSave
  rw [hact]

theorem takeFault_nil (db : DB) (hf : db.faults = []) : db.takeFault = (none, db) := by
  unfold DB.takeFault
  rw [hf]

theorem takeFault_cons (db : DB) (f : Option String) (fs : List (Option String))
    (hf : db.faults = f :: fs) : db.takeFault = (f, { db with faults := fs }) := by
  unfold DB.takeFault
  rw [hf]

theorem dbUpdate_nofault (db : DB) (d : Row) (fl : List (String × Value))
    (hf : db.faults = []) :
    dbUpdate db d fl =
      .ok ((db.rows.filter fun r => rowMatches r fl).map (fun r => applyData r d),
        { db with rows := db.rows.map fun r => if rowMatches r fl then applyData r d else r }) := by
  unfold dbUpdate
  rw [takeFault_nil db hf]

theorem dbUpdate_fault (db : DB) (d : Row) (fl : List (String × Value))
    (e : String) (fs : List (Option String)) (hf : db.faults = some e :: fs) :
    dbUpdate db d fl = .error (e, { db with faults := fs }) := by
  unfold dbUpdate
  rw [takeFault_cons db _ _ hf]

theorem dbUpdate_consume_none (db : DB) (d : Row) (fl : List (String × Value))
    (fs : List (Option String)) (hf : db.faults = none :: fs) :
    dbUpdate db d fl =
      .ok ((db.rows.filter fun r => rowMatches r fl).map (fun r => applyData r d),
        { db with rows := db.rows.map fun r => if rowMatches r fl then applyData r d else r,
                  faults := fs }) := by
  unfold dbUpdate
  rw [takeFault_cons db _ _ hf]

theorem dbInsert_nofault (db : DB) (d : Row) (hf : db.faults = []) :
    dbInsert db d =
      .ok ([rowSet d "id" (.int db.nextId)],
        { db with rows := db.rows ++ [rowSet d "id" (.int db.nextId)],
                  nextId := db.nextId + 1 }) := by
  unfold dbInsert
  rw [takeFault_nil db hf]

theorem dbInsert_fault (db : DB) (d : Row) (e : String) (fs : List (Option String))
    (hf : db.faults = some e :: fs) :
    dbInsert db d = .error (e, { db with faults := fs }) := by
  unfold dbInsert
  rw [takeFault_cons db _ _ hf]

theorem save_assets_fault (db : DB) (now u a : String) (cid : Value)
    (e : String) (fs : List (Option String)) (hf : db.faults = some e :: fs) :
    save_assets_to_campaign db now u (Value.str a) cid =
      ({ success := false, error := some e }, { db with faults := fs }) := by
  simp only [save_assets_to_campaign]
  rw [dbUpdate_fault db _ _ e fs hf]

theorem dbUpdate_error_mem (db : DB) (d : Row) (fl : List (String × Value))
    (e : String) (db1 : DB) (h : dbUpdate db d fl = .error (e, db1)) :
    some e ∈ db.faults := by
  unfold dbUpdate DB.takeFault at h
  cases hf : db.faults with
  | nil =>
      rw [hf] at h
      simp at h
  | cons f fs =>
      rw [hf] at h
      cases f with
      | none => simp at h
      | some e' =>
          simp at h
          rw [← h.1]
          exact List.mem_cons_self _ _

theorem dbInsert_error_mem (db : DB) (d : Row) (e : String) (db1 : DB)
    (h : dbInsert db d = .error (e, db1)) : some e ∈ db.faults := by
  unfold dbInsert DB.takeFault at h
  cases hf : db.faults with
  | nil =>
      rw [hf] at h
      simp at h
  | cons f fs =>
      rw [hf] at h
      cases f with
      | none => simp at h
      | some e' =>
          simp at h
          rw [← h.1]
          exact List.mem_cons_self _ _

theorem activeUpdate_error_ne (db : DB) (u : String) (d : Row) (now : String) (r : Row)
    (hfa : some "Campaign not found or access denied" ∉ db.faults) :
    (activeUpdate db u d now r).1.error ≠ some "Campaign not found or access denied" := by
  unfold activeUpdate
  cases hid : rowGet r "id" with
  | none => simp
  | some acid =>
      simp only []
      cases hup : dbUpdate db (rowSet (rowSet d "updated_at" (.str now)) "version"
          ((rowGet r "version").getD (.int 1))) [("id", acid), ("user_id", .str u)] with
      | error p =>
          obtain ⟨e, db1⟩ := p
          have hmem := dbUpdate_error_mem _ _ _ _ _ hup
          simp only [hup]
          intro hc
          simp only [Option.some.injEq] at hc
          rw [hc] at hmem
          exact hfa hmem
      | ok p =>
          obtain ⟨rows, db1⟩ := p
          simp only [hup]
          cases rows <;> simp

theorem createCampaign_error_ne (db : DB) (u : String) (d : Row) (now : String)
    (hfa : some "Campaign not found or access denied" ∉ db.faults) :
    (createCampaign db u d now).1.error ≠ some "Campaign not found or access denied" := by
  unfold createCampaign
  cases hin : dbInsert db (newCampaignData u d now) with
  | error p =>
      obtain ⟨e, db1⟩ := p
      have hmem := dbInsert_error_mem _ _ _ _ hin
      simp only [hin]
      intro hc
      simp only [Option.some.injEq] at hc
      rw [hc] at hmem
      exact hfa hmem
  | ok p =>
      obtain ⟨rows, db1⟩ := p
      simp only [hin]
      cases rows with
      | nil => simp
      | cons row rs =>
          cases h2 : rowGet row "id" <;> simp [h2]

theorem noIdSave_error_ne (db : DB) (u : String) (d : Row) (now : String)
    (hfa : some "Campaign not found or access denied" ∉ db.faults) :
    (noIdSave db u d now).1.error ≠ some "Campaign not found or access denied" := by
  unfold noIdSave
  cases hact : dbSelect db [("user_id", Value.str u), ("is_active", Value.bool true)] with
  | nil => exact createCampaign_error_ne db u d now hfa
  | cons r rest => exact activeUpdate_error_ne db u d now r hfa

theorem rowGet_ite_rowSet_ne (p : Prop) [Decidable p] (c : Row) (dk k : String)
    (v : Value) (hk : k ≠ dk) :
    rowGet (if p then rowSet c dk v else c) k = rowGet c k := by
  split
  · exact rowGet_rowSet_ne c dk k v hk
  · rfl

theorem rowGet_ite_rowSet_of_none (c : Row) (dk : String) (v : Value)
    (h : rowGet c dk = none) :
    rowGet (if (rowGet c dk).isNone then rowSet c dk v else c) dk = some v := by
  rw [h]
  simp [rowGet_rowSet_self]

theorem rowGet_ite_rowSet_of_some (c : Row) (dk : String) (v w : Value)
    (h : rowGet c dk = some w) :
    rowGet (if (rowGet c dk).isNone then rowSet c dk v else c) dk = some w := by
  rw [h]
  simp [h]

theorem newCampaignData_get_other (u now : String) (d2 : Row) (k : String)
    (hk1 : k ≠ "budget_amount") (hk2 : k ≠ "campaign_duration")
    (h : rowGet d2 k = none) :
    rowGet (newCampaignData u d2 now) k =
      rowGet [("user_id", Value.str u), ("is_active", Value.bool true),
              ("version", Value.int 1), ("created_at", Value.str now),
              ("updated_at", Value.str now)] k := by
  unfold newCampaignData
  dsimp only
  rw [rowGet_ite_rowSet_ne _ _ _ _ _ hk2, rowGet_ite_rowSet_ne _ _ _ _ _ hk1,
      applyData_get_none _ _ _ h]

theorem newCampaignData_budget_default (u now : String) (d2 : Row)
    (h : rowGet d2 "budget_amount" = none) :
    rowGet (newCampaignData u d2 now) "budget_amount" = some (Value.int 0) := by
  unfold newCampaignData
  dsimp only
  rw [rowGet_ite_rowSet_ne _ _ _ _ _ (by decide)]
  have h0 : rowGet (applyData [("user_id", Value.str u), ("is_active", Value.bool true),
      ("version", Value.int 1), ("created_at", Value.str now),
      ("updated_at", Value.str now)] d2) "budget_amount" = none := by
    rw [applyData_get_none _ _ _ h]
    rfl
  exact rowGet_ite_rowSet_of_none _ _ _ h0

theorem newCampaignData_duration_default (u now : String) (d2 : Row)
    (h : rowGet d2 "campaign_duration" = none) :
    rowGet (newCampaignData u d2 now) "campaign_duration" = some (Value.int 1) := by
  unfold newCampaignData
  dsimp only
  have h0 : rowGet (applyData [("user_id", Value.str u), ("is_active", Value.bool true),
      ("version", Value.int 1), ("created_at", Value.str now),
      ("updated_at", Value.str now)] d2) "campaign_duration" = none := by
    rw [applyData_get_none _ _ _ h]
    rfl
  have h1 : rowGet (if (rowGet (applyData [("user_id", Value.str u),
      ("is_active", Value.bool true), ("version", Value.int 1),
      ("created_at", Value.str now), ("updated_at", Value.str now)] d2)
        "budget_amount").isNone then
      rowSet (applyData [("user_id", Value.str u), ("is_active", Value.bool true),
        ("version", Value.int 1), ("created_at", Value.str now),
        ("updated_at", Value.str now)] d2) "budget_amount" (Value.int 0)
    else applyData [("user_id", Value.str u), ("is_active", Value.bool true),
        ("version", Value.int 1), ("created_at", Value.str now),
        ("updated_at", Value.str now)] d2) "campaign_duration" = none := by
    rw [rowGet_ite_rowSet_ne _ _ _ _ _ (by decide)]
    exact h0
  exact rowGet_ite_rowSet_of_none _ _ _ h1

theorem newCampaignData_get_supplied (u now : String) (d2 : Row) (k : String) (v : Value)
    (hnd : (d2.map Prod.fst).Nodup) (h : rowGet d2 k = some v) :
    rowGet (newCampaignData u d2 now) k = some v := by
  unfold newCampaignData
  dsimp only
  have h0 : rowGet (applyData [("user_id", Value.str u), ("is_active", Value.bool true),
      ("version", Value.int 1), ("created_at", Value.str now),
      ("updated_at", Value.str now)] d2) k = some v :=
    applyData_get_some _ _ _ _ hnd h
  by_cases hk2 : k = "campaign_duration"
  · subst hk2
    have h1 : rowGet (if (rowGet (applyData [("user_id", Value.str u),
        ("is_active", Value.bool true), ("version", Value.int 1),
        ("created_at", Value.str now), ("updated_at", Value.str now)] d2)
          "budget_amount").isNone then
        rowSet (applyData [("user_id", Value.str u), ("is_active", Value.bool true),
          ("version", Value.int 1), ("created_at", Value.str now),
          ("updated_at", Value.str now)] d2) "budget_amount" (Value.int 0)
      else applyData [("user_id", Value.str u), ("is_active", Value.bool true),
          ("version", Value.int 1), ("created_at", Value.str now),
          ("updated_at", Value.str now)] d2) "campaign_duration" = some v := by
      rw [rowGet_ite_rowSet_ne _ _ _ _ _ (by decide)]
      exact h0
    exact rowGet_ite_rowSet_of_some _ _ _ _ h1
  · rw [rowGet_ite_rowSet_ne _ _ _ _ _ hk2]
    by_cases hk1 : k = "budget_amount"
    · subst hk1
      exact rowGet_ite_rowSet_of_some _ _ _ _ h0
    · rw [rowGet_ite_rowSet_ne _ _ _ _ _ hk1]
      exact h0

theorem createCampaign_nofault (db : DB) (u : String) (d2 : Row) (now : String)
    (hf : db.faults = []) :
    createCampaign db u d2 now =
      ({ success := true, campaign_id := some (Value.int db.nextId), is_update := some false,
         is_new_version := some false, version := some (Value.int 1) },
       { db with
           rows := db.rows ++ [rowSet (newCampaignData u d2 now) "id" (Value.int db.nextId)],
           nextId := db.nextId + 1 }) := by
  unfold createCampaign
  rw [dbInsert_nofault db _ hf]
  simp only [rowGet_rowSet_self]

theorem activeUpdate_nofault (db : DB) (u : String) (d2 : Row) (now : String) (r : Row)
    (acid : Value) (hid : rowGet r "id" = some acid) (hf : db.faults = [])
    (hne : db.rows.filter
      (fun row => rowMatches row [("id", acid), ("user_id", Value.str u)]) ≠ []) :
    activeUpdate db u d2 now r =
      ({ success := true, campaign_id := some acid, is_update := some true,
         is_new_version := some false,
         version := some ((rowGet r "version").getD (Value.int 1)) },
       { db with rows := db.rows.map fun row =>
           if rowMatches row [("id", acid), ("user_id", Value.str u)] then
             applyData row (rowSet (rowSet d2 "updated_at" (Value.str now)) "version"
               ((rowGet r "version").getD (Value.int 1)))
           else row }) := by
  unfold activeUpdate
  rw [hid]
  cases hsel : db.rows.filter
      (fun row => rowMatches row [("id", acid), ("user_id", Value.str u)]) with
  | nil => exact absurd hsel hne
  | cons x xs =>
      simp only [dbUpdate_nofault db _ _ hf, hsel, List.map_cons]

/-! ### The claims -/

/-- C5: for every user, every payload, and every explicit campaign_id that is
a string not coercible to an integer, `handle_campaign_save` returns the same
result and performs the same store effects as the same call with no
campaign_id at all — it falls through to the active-campaign lookup or
creation path rather than failing. -/
theorem claim_C5 (db : DB) (u : String) (data : Row) (s : String) (now : String)
    (h : pyIntOfString s = none) :
    handle_campaign_save db u data (Value.str s) now =
      handle_campaign_save db u data Value.null now := by
  by_cases hs : s = ""
  · subst hs
    rw [handle_falsy db u data (Value.str "") now (by decide), handle_null]
  · have hc : coerce_campaign_id (Value.str s) = Value.null := by
      unfold coerce_campaign_id
      simp [bne_iff_ne, hs, h]
    unfold handle_campaign_save
    rw [hc]
    rfl

/-- Witness for C5: the id "abc" is not integer-coercible and the two calls
agree on a concrete store. -/
theorem claim_C5_witness :
    pyIntOfString "abc" = none ∧
      handle_campaign_save ⟨[], 1, []⟩ "A" [("campaign_goal", Value.str "g")]
          (Value.str "abc") "t" =
        handle_campaign_save ⟨[], 1, []⟩ "A" [("campaign_goal", Value.str "g")]
          Value.null "t" :=
  ⟨by decide, claim_C5 ⟨[], 1, []⟩ "A" [("campaign_goal", Value.str "g")] "abc" "t" (by decide)⟩

/-- C9: a falsy explicit campaign_id — the integer 0 in particular — does not
take the explicit-id branch: because the branch guard tests truthiness in
addition to integer type, the call behaves exactly as if no id were supplied,
and (as long as the store's own exception text is not that exact message)
never yields the "Campaign not found or access denied" failure. -/
theorem claim_C9 (db : DB) (u : String) (data : Row) (cid : Value) (now : String)
    (h : cid.truthy = false)
    (hfa : some "Campaign not found or access denied" ∉ db.faults) :
    handle_campaign_save db u data cid now = handle_campaign_save db u data Value.null now ∧
    (handle_campaign_save db u data cid now).1.error ≠
      some "Campaign not found or access denied" := by
  constructor
  · rw [handle_falsy db u data cid now h, handle_null]
  · rw [handle_falsy db u data cid now h]
    exact noIdSave_error_ne db u _ now hfa

/-- Witness for C9 at the explicit id 0 against a store holding the user's
active campaign. -/
theorem claim_C9_witness :
    (Value.int 0).truthy = false ∧
    some "Campaign not found or access denied" ∉
      ([] : List (Option String)) ∧
    (handle_campaign_save ⟨[[("id", Value.int 1), ("user_id", Value.str "A"),
          ("is_active", Value.bool true), ("version", Value.int 1)]], 2, []⟩ "A"
          [("campaign_goal", Value.str "x")] (Value.int 0) "t" =
        handle_campaign_save ⟨[[("id", Value.int 1), ("user_id", Value.str "A"),
          ("is_active", Value.bool true), ("version", Value.int 1)]], 2, []⟩ "A"
          [("campaign_goal", Value.str "x")] Value.null "t" ∧
      (handle_campaign_save ⟨[[("id", Value.int 1), ("user_id", Value.str "A"),
          ("is_active", Value.bool true), ("version", Value.int 1)]], 2, []⟩ "A"
          [("campaign_goal", Value.str "x")] (Value.int 0) "t").1.error ≠
        some "Campaign not found or access denied") :=
  ⟨by decide, by decide,
    claim_C9 ⟨[[("id", Value.int 1), ("user_id", Value.str "A"),
      ("is_active", Value.bool true), ("version", Value.int 1)]], 2, []⟩ "A"
      [("campaign_goal", Value.str "x")] (Value.int 0) "t" (by decide) (by decide)⟩

/-- C1 counterexample: 0 is a well-formed integer id, user "A" owns no record
with id 0 (the store's serial ids start at 1), and yet the call with explicit
id 0 does not return the "Campaign not found or access denied" failure — it
falls through to the active-campaign branch and updates the active record. -/
theorem claim_C1_counterexample :
    dbSelect ⟨[[("id", Value.int 1), ("user_id", Value.str "A"),
        ("is_active", Value.bool true), ("version", Value.int 1)]], 2, []⟩
        [("id", Value.int 0), ("user_id", Value.str "A")] = [] ∧
    (handle_campaign_save ⟨[[("id", Value.int 1), ("user_id", Value.str "A"),
        ("is_active", Value.bool true), ("version", Value.int 1)]], 2, []⟩ "A"
        [("campaign_goal", Value.str "x")] (Value.int 0) "t").1 =
      { success := true, campaign_id := some (Value.int 1), is_update := some true,
        is_new_version := some false, version := some (Value.int 1) } := by
  exact ⟨by decide, by decide⟩

/-- C1 (amended): for every NONZERO integer explicit campaign_id with no
record owned by the user under that id, `handle_campaign_save` returns the
"Campaign not found or access denied" failure, does not fall through to the
active-campaign or creation branches, and leaves the store untouched (no
record is created); the integer 0 is the single exception forced by the
truthiness guard, shown in the counterexample. -/
theorem claim_C1_amended (db : DB) (u : String) (data : Row) (n : Int) (now : String)
    (hn : n ≠ 0)
    (hfind : dbSelect db [("id", Value.int n), ("user_id", Value.str u)] = []) :
    handle_campaign_save db u data (Value.int n) now =
      ({ success := false, error := some "Campaign not found or access denied" }, db) := by
  rw [handle_int_ne_zero db u data n now hn]
  unfold explicitUpdate
  rw [hfind]

/-- Witness for the amended C1: id 7 owned by nobody on a store that holds a
different user's record. -/
theorem claim_C1_amended_witness :
    (7 : Int) ≠ 0 ∧
    dbSelect ⟨[[("id", Value.int 1), ("user_id", Value.str "B")]], 2, []⟩
      [("id", Value.int 7), ("user_id", Value.str "A")] = [] ∧
    handle_campaign_save ⟨[[("id", Value.int 1), ("user_id", Value.str "B")]], 2, []⟩ "A"
        [("campaign_goal", Value.str "x")] (Value.int 7) "t" =
      ({ success := false, error := some "Campaign not found or access denied" },
       ⟨[[("id", Value.int 1), ("user_id", Value.str "B")]], 2, []⟩) :=
  ⟨by decide, by decide,
    claim_C1_amended ⟨[[("id", Value.int 1), ("user_id", Value.str "B")]], 2, []⟩ "A"
      [("campaign_goal", Value.str "x")] 7 "t" (by decide) (by decide)⟩

/-- C8 counterexample: on the creation path, when the store's insert raises a
uniqueness violation (an active record now exists at the persistence layer),
`handle_campaign_save` simply returns the exception as a failure — it does
not retry the operation as an update: the returned result is not an update
result and the store is left with no row touched. -/
theorem claim_C8_counterexample :
    handle_campaign_save ⟨[], 1, [some "duplicate key value violates unique constraint"]⟩ "A"
        [("campaign_goal", Value.str "g")] Value.null "t" =
      ({ success := false, error := some "duplicate key value violates unique constraint" },
       ⟨[], 1, []⟩) := by
  decide

/-- C8 (amended): on the no-explicit-id creation path, if the insert raises
(in particular with a uniqueness violation), `handle_campaign_save` returns
a plain failure carrying the exception text; no retry-as-update happens and
no record is created or updated. -/
theorem claim_C8_amended (db : DB) (u : String) (data : Row) (now : String)
    (e : String) (fs : List (Option String))
    (hact : dbSelect db [("user_id", Value.str u), ("is_active", Value.bool true)] = [])
    (hf : db.faults = some e :: fs) :
    handle_campaign_save db u data Value.null now =
      ({ success := false, error := some e }, { db with faults := fs }) := by
  rw [handle_null, noIdSave_create db u _ now hact]
  unfold createCampaign
  rw [dbInsert_fault db _ e fs hf]

/-- Witness for the amended C8: an empty store whose insert raises a
uniqueness violation. -/
theorem claim_C8_amended_witness :
    dbSelect ⟨[], 1, [some "duplicate key value violates unique constraint"]⟩
      [("user_id", Value.str "A"), ("is_active", Value.bool true)] = [] ∧
    handle_campaign_save ⟨[], 1, [some "duplicate key value violates unique constraint"]⟩ "A"
        [("budget_amount", Value.int 500)] Value.null "t" =
      ({ success := false, error := some "duplicate key value violates unique constraint" },
       ⟨[], 1, []⟩) :=
  ⟨by decide,
    claim_C8_amended ⟨[], 1, [some "duplicate key value violates unique constraint"]⟩ "A"
      [("budget_amount", Value.int 500)] "t"
      "duplicate key value violates unique constraint" [] (by decide) (by decide)⟩

/-- C7 counterexample: the primary record update succeeds (and persists — the
stored row carries the new field and timestamp), the secondary assets write
then fails, and `handle_campaign_save` returns the secondary failure as the
overall result: success is false, no campaign_id is returned, and the error
is the secondary write's error — the caller cannot tell the primary save
succeeded. -/
theorem claim_C7_counterexample :
    handle_campaign_save ⟨[[("id", Value.int 5), ("user_id", Value.str "A")]], 6,
        [none, some "connection reset"]⟩ "A"
        [("assets", Value.str "img"), ("campaign_goal", Value.str "g")] (Value.int 5) "t" =
      ({ success := false, error := some "connection reset" },
       ⟨[[("id", Value.int 5), ("user_id", Value.str "A"),
          ("campaign_goal", Value.str "g"), ("updated_at", Value.str "t")]], 6, []⟩) := by
  decide

/-- C7 (amended): whenever the explicit-id update succeeds but the secondary
assets write raises, `handle_campaign_save` returns the assets failure as
the whole result — success false, the secondary exception text, and no
campaign_id — even though the primary update is already persisted in the
store. The secondary failure is thus reported as failure of the save. -/
theorem claim_C7_amended (db : DB) (u : String) (data : Row) (n : Int) (a : String)
    (now e : String) (r : Row) (rs : List Row) (fs : List (Option String))
    (hn : n ≠ 0)
    (hfind : dbSelect db [("id", Value.int n), ("user_id", Value.str u)] = r :: rs)
    (hf : db.faults = none :: some e :: fs)
    (hstrip : (stripAssets data).1 = Value.str a) (ha : a ≠ "") :
    handle_campaign_save db u data (Value.int n) now =
      ({ success := false, error := some e },
       { db with
           rows := db.rows.map fun row =>
             if rowMatches row [("id", Value.int n), ("user_id", Value.str u)] then
               applyData row (rowSet (stripAssets data).2 "updated_at" (Value.str now))
             else row,
           faults := fs }) := by
  have htr : (Value.str a).truthy = true := by
    simp [Value.truthy, ha]
  have hfind' : db.rows.filter
      (fun row => rowMatches row [("id", Value.int n), ("user_id", Value.str u)]) = r :: rs :=
    hfind
  rw [handle_int_ne_zero db u data n now hn]
  unfold explicitUpdate
  rw [hfind]
  simp only [dbUpdate_consume_none db _ _ _ hf, hfind', List.map_cons, List.isEmpty_cons,
             Bool.not_false, hstrip, htr, Bool.true_and, if_true]
  rw [save_assets_fault _ now u a (Value.int n) e fs rfl]
  rfl

/-- Witness for the amended C7 at the concrete store of the counterexample
with a different payload. -/
theorem claim_C7_amended_witness :
    (5 : Int) ≠ 0 ∧
    dbSelect ⟨[[("id", Value.int 5), ("user_id", Value.str "A")]], 6,
        [none, some "timeout"]⟩ [("id", Value.int 5), ("user_id", Value.str "A")] =
      [[("id", Value.int 5), ("user_id", Value.str "A")]] ∧
    (stripAssets [("selected_asset_ids", Value.str "a1"), ("goal", Value.str "x")]).1 =
      Value.str "a1" ∧
    handle_campaign_save ⟨[[("id", Value.int 5), ("user_id", Value.str "A")]], 6,
        [none, some "timeout"]⟩ "A"
        [("selected_asset_ids", Value.str "a1"), ("goal", Value.str "x")] (Value.int 5) "t" =
      ({ success := false, error := some "timeout" },
       ⟨[[("id", Value.int 5), ("user_id", Value.str "A"),
          ("goal", Value.str "x"), ("updated_at", Value.str "t")]], 6, []⟩) := by
  refine ⟨by decide, by decide, by decide, ?_⟩
  have h := claim_C7_amended ⟨[[("id", Value.int 5), ("user_id", Value.str "A")]], 6,
      [none, some "timeout"]⟩ "A"
      [("selected_asset_ids", Value.str "a1"), ("goal", Value.str "x")] 5 "a1" "t" "timeout"
      [("id", Value.int 5), ("user_id", Value.str "A")] [] []
      (by decide) (by decide) (by decide) (by decide) (by decide)
  rw [h]
  decide

/-- C6: whenever identity resolution fails — the token is missing or falsy
(401 before any decode), empty after stripping, malformed, expired, or
lacking a user_id — the save endpoint returns an error response carrying the
distinguishable error text and performs no store read or write: the store it
returns is exactly the store it was given, so no record is mutated. -/
theorem claim_C6 (jd : String → JwtOutcome) (db : DB) (now : String) (reqData : Row)
    (e : String)
    (h : decode_jwt_token jd ((rowGet reqData "user_id").getD Value.null) = .error e) :
    (save_budget_testing jd db now reqData).2 = db ∧
    ((save_budget_testing jd db now reqData).1 =
        { status := 401, error := some "Missing auth token" } ∨
      (save_budget_testing jd db now reqData).1 = { status := 500, error := some e }) := by
  unfold save_budget_testing
  by_cases ht : ((rowGet reqData "user_id").getD Value.null).truthy
  · simp only [ht, Bool.not_true, Bool.false_eq_true, if_false]
    rw [h]
    exact ⟨rfl, Or.inr rfl⟩
  · simp only [Bool.not_eq_true] at ht
    simp only [ht, Bool.not_false, if_pos rfl]
    exact ⟨rfl, Or.inl rfl⟩

/-- Witness for C6: an expired token against a store holding a record; the
response is the expiry error and the store is unchanged. -/
theorem claim_C6_witness :
    decode_jwt_token (fun _ => JwtOutcome.expired) ((rowGet
        [("user_id", Value.str "tok"), ("budget_type", Value.str "daily")]
        "user_id").getD Value.null) =
      .error "Token has expired. Please login again." ∧
    (save_budget_testing (fun _ => JwtOutcome.expired)
        ⟨[[("id", Value.int 1), ("user_id", Value.str "A")]], 2, []⟩ "t"
        [("user_id", Value.str "tok"), ("budget_type", Value.str "daily")]).2 =
      ⟨[[("id", Value.int 1), ("user_id", Value.str "A")]], 2, []⟩ ∧
    ((save_budget_testing (fun _ => JwtOutcome.expired)
        ⟨[[("id", Value.int 1), ("user_id", Value.str "A")]], 2, []⟩ "t"
        [("user_id", Value.str "tok"), ("budget_type", Value.str "daily")]).1 =
        { status := 401, error := some "Missing auth token" } ∨
      (save_budget_testing (fun _ => JwtOutcome.expired)
        ⟨[[("id", Value.int 1), ("user_id", Value.str "A")]], 2, []⟩ "t"
        [("user_id", Value.str "tok"), ("budget_type", Value.str "daily")]).1 =
        { status := 500, error := some "Token has expired. Please login again." }) := by
  refine ⟨by rfl, ?_, ?_⟩
  · exact (claim_C6 (fun _ => JwtOutcome.expired)
      ⟨[[("id", Value.int 1), ("user_id", Value.str "A")]], 2, []⟩ "t"
      [("user_id", Value.str "tok"), ("budget_type", Value.str "daily")]
      "Token has expired. Please login again." (by rfl)).1
  · exact (claim_C6 (fun _ => JwtOutcome.expired)
      ⟨[[("id", Value.int 1), ("user_id", Value.str "A")]], 2, []⟩ "t"
      [("user_id", Value.str "tok"), ("budget_type", Value.str "daily")]
      "Token has expired. Please login again." (by rfl)).2

/-- C4: for every user with no active campaign and no explicit campaign_id,
with a payload supplying only mutable campaign fields (none of the
identity / lifecycle columns, which real callers never send), a fault-free
`handle_campaign_save` creates exactly one new record with the caller's
user id, `is_active = true`, `version = 1`, `created_at = updated_at = now`,
merged with the supplied fields; `budget_amount` defaults to 0 and
`campaign_duration` defaults to the positive minimum 1 when absent; the call
returns the new record's id with `is_update = false`. -/
theorem claim_C4 (db : DB) (u : String) (data : Row) (now : String)
    (hact : dbSelect db [("user_id", Value.str u), ("is_active", Value.bool true)] = [])
    (hf : db.faults = [])
    (hnd : (data.map Prod.fst).Nodup)
    (h1 : rowGet data "user_id" = none) (h2 : rowGet data "is_active" = none)
    (h3 : rowGet data "version" = none) (h4 : rowGet data "created_at" = none)
    (h5 : rowGet data "updated_at" = none) (h6 : rowGet data "id" = none) :
    (handle_campaign_save db u data Value.null now).1 =
      { success := true, campaign_id := some (Value.int db.nextId), is_update := some false,
        is_new_version := some false, version := some (Value.int 1) } ∧
    ∃ newRow,
      (handle_campaign_save db u data Value.null now).2.rows = db.rows ++ [newRow] ∧
      rowGet newRow "id" = some (Value.int db.nextId) ∧
      rowGet newRow "user_id" = some (Value.str u) ∧
      rowGet newRow "is_active" = some (Value.bool true) ∧
      rowGet newRow "version" = some (Value.int 1) ∧
      rowGet newRow "created_at" = some (Value.str now) ∧
      rowGet newRow "updated_at" = some (Value.str now) ∧
      (∀ k v, rowGet data k = some v → k ≠ "assets" → k ≠ "selected_asset_ids" →
        rowGet newRow k = some v) ∧
      (rowGet data "budget_amount" = none →
        rowGet newRow "budget_amount" = some (Value.int 0)) ∧
      (rowGet data "campaign_duration" = none →
        rowGet newRow "campaign_duration" = some (Value.int 1)) := by
  rw [handle_null, noIdSave_create db u _ now hact, createCampaign_nofault db u _ now hf]
  have hnd2 := stripAssets_keys_nodup data hnd
  have g1 := stripAssets_get_of_none data _ h1
  have g2 := stripAssets_get_of_none data _ h2
  have g3 := stripAssets_get_of_none data _ h3
  have g4 := stripAssets_get_of_none data _ h4
  have g5 := stripAssets_get_of_none data _ h5
  refine ⟨rfl,
    rowSet (newCampaignData u (stripAssets data).2 now) "id" (Value.int db.nextId),
    rfl, rowGet_rowSet_self _ _ _, ?_, ?_, ?_, ?_, ?_, ?_, ?_, ?_⟩
  · rw [rowGet_rowSet_ne _ _ _ _ (by decide),
        newCampaignData_get_other u now _ _ (by decide) (by decide) g1]
    rfl
  · rw [rowGet_rowSet_ne _ _ _ _ (by decide),
        newCampaignData_get_other u now _ _ (by decide) (by decide) g2]
    rfl
  · rw [rowGet_rowSet_ne _ _ _ _ (by decide),
        newCampaignData_get_other u now _ _ (by decide) (by decide) g3]
    rfl
  · rw [rowGet_rowSet_ne _ _ _ _ (by decide),
        newCampaignData_get_other u now _ _ (by decide) (by decide) g4]
    rfl
  · rw [rowGet_rowSet_ne _ _ _ _ (by decide),
        newCampaignData_get_other u now _ _ (by decide) (by decide) g5]
    rfl
  · intro k v hk hka hks
    have hk2 : rowGet (stripAssets data).2 k = some v := by
      rw [stripAssets_get_ne data k hka hks]
      exact hk
    have hkid : k ≠ "id" := by
      intro hc
      subst hc
      rw [h6] at hk
      cases hk
    rw [rowGet_rowSet_ne _ _ _ _ hkid]
    exact newCampaignData_get_supplied u now _ k v hnd2 hk2
  · intro hb
    have gb := stripAssets_get_of_none data _ hb
    rw [rowGet_rowSet_ne _ _ _ _ (by decide)]
    exact newCampaignData_budget_default u now _ gb
  · intro hd
    have gd := stripAssets_get_of_none data _ hd
    rw [rowGet_rowSet_ne _ _ _ _ (by decide)]
    exact newCampaignData_duration_default u now _ gd

/-- Witness for C4: the spec's own scenario — user with no records saves
`{campaign_goal: "awareness"}`. -/
theorem claim_C4_witness :
    dbSelect ⟨[], 1, []⟩ [("user_id", Value.str "A"), ("is_active", Value.bool true)] = [] ∧
    ((handle_campaign_save ⟨[], 1, []⟩ "A" [("campaign_goal", Value.str "awareness")]
        Value.null "t").1 =
      { success := true, campaign_id := some (Value.int 1), is_update := some false,
        is_new_version := some false, version := some (Value.int 1) } ∧
    ∃ newRow,
      (handle_campaign_save ⟨[], 1, []⟩ "A" [("campaign_goal", Value.str "awareness")]
          Value.null "t").2.rows = ([] : List Row) ++ [newRow] ∧
      rowGet newRow "id" = some (Value.int 1) ∧
      rowGet newRow "user_id" = some (Value.str "A") ∧
      rowGet newRow "is_active" = some (Value.bool true) ∧
      rowGet newRow "version" = some (Value.int 1) ∧
      rowGet newRow "created_at" = some (Value.str "t") ∧
      rowGet newRow "updated_at" = some (Value.str "t") ∧
      (∀ k v, rowGet [("campaign_goal", Value.str "awareness")] k = some v →
        k ≠ "assets" → k ≠ "selected_asset_ids" → rowGet newRow k = some v) ∧
      (rowGet [("campaign_goal", Value.str "awareness")] "budget_amount" = none →
        rowGet newRow "budget_amount" = some (Value.int 0)) ∧
      (rowGet [("campaign_goal", Value.str "awareness")] "campaign_duration" = none →
        rowGet newRow "campaign_duration" = some (Value.int 1))) :=
  ⟨by decide,
    claim_C4 ⟨[], 1, []⟩ "A" [("campaign_goal", Value.str "awareness")] "t"
      (by decide) rfl (by decide) (by decide) (by decide) (by decide) (by decide)
      (by decide) (by decide)⟩

/-- C3: for every user whose active campaign is found (a record carrying an
id and a version), a fault-free `handle_campaign_save` with no explicit id
and a payload not containing the version key leaves the record's version
equal to its prior value, stamps `updated_at` with the save time, changes no
field outside the supplied payload plus `updated_at`, creates no record, and
reports the preserved version in its result. -/
theorem claim_C3 (db : DB) (u : String) (data : Row) (now : String)
    (r : Row) (rest : List Row) (acid ver : Value)
    (hact : dbSelect db [("user_id", Value.str u), ("is_active", Value.bool true)] = r :: rest)
    (hid : rowGet r "id" = some acid)
    (hver : rowGet r "version" = some ver)
    (hf : db.faults = [])
    (hnd : (data.map Prod.fst).Nodup)
    (_hnov : rowGet data "version" = none) :
    (handle_campaign_save db u data Value.null now).1 =
      { success := true, campaign_id := some acid, is_update := some true,
        is_new_version := some false, version := some ver } ∧
    (handle_campaign_save db u data Value.null now).2.rows.length = db.rows.length ∧
    ∃ r', r' ∈ (handle_campaign_save db u data Value.null now).2.rows ∧
      rowGet r' "version" = rowGet r "version" ∧
      rowGet r' "updated_at" = some (Value.str now) ∧
      (∀ k, k ∉ data.map Prod.fst → k ≠ "updated_at" → rowGet r' k = rowGet r k) := by
  have hrfil : r ∈ db.rows.filter
      (fun row => rowMatches row [("user_id", Value.str u), ("is_active", Value.bool true)]) := by
    rw [show db.rows.filter
        (fun row => rowMatches row [("user_id", Value.str u), ("is_active", Value.bool true)]) =
        r :: rest from hact]
    exact List.mem_cons_self r rest
  have hrmem := (List.mem_filter.1 hrfil).1
  have hrmatch := (List.mem_filter.1 hrfil).2
  have huser : rowGet r "user_id" = some (Value.str u) := by
    simp only [rowMatches, List.all_cons, List.all_nil, Bool.and_true, Bool.and_eq_true,
      beq_iff_eq] at hrmatch
    exact hrmatch.1
  have hrmatch2 : rowMatches r [("id", acid), ("user_id", Value.str u)] = true := by
    simp [rowMatches, hid, huser]
  have hne : db.rows.filter
      (fun row => rowMatches row [("id", acid), ("user_id", Value.str u)]) ≠ [] :=
    List.ne_nil_of_mem (List.mem_filter.2 ⟨hrmem, hrmatch2⟩)
  have hverd : (rowGet r "version").getD (Value.int 1) = ver := by
    rw [hver]
    rfl
  rw [handle_null, noIdSave_active db u _ now r rest hact,
      activeUpdate_nofault db u _ now r acid hid hf hne, hverd]
  have hnd2 := stripAssets_keys_nodup data hnd
  have hnd3 : ((rowSet (rowSet (stripAssets data).2 "updated_at" (Value.str now))
      "version" ver).map Prod.fst).Nodup :=
    keys_rowSet_nodup _ _ _ (keys_rowSet_nodup _ _ _ hnd2)
  refine ⟨rfl, by simp, applyData r (rowSet (rowSet (stripAssets data).2 "updated_at"
      (Value.str now)) "version" ver), ?_, ?_, ?_, ?_⟩
  · have := List.mem_map_of_mem (fun row =>
      if rowMatches row [("id", acid), ("user_id", Value.str u)] then
        applyData row (rowSet (rowSet (stripAssets data).2 "updated_at" (Value.str now))
          "version" ver)
      else row) hrmem
    simp only [hrmatch2, if_true] at this
    exact this
  · rw [hver]
    exact applyData_get_some _ _ _ _ hnd3 (rowGet_rowSet_self _ _ _)
  · refine applyData_get_some _ _ _ _ hnd3 ?_
    rw [rowGet_rowSet_ne _ _ _ _ (by decide)]
    exact rowGet_rowSet_self _ _ _
  · intro k hk hkua
    by_cases hkv : k = "version"
    · subst hkv
      rw [hver]
      exact applyData_get_some _ _ _ _ hnd3 (rowGet_rowSet_self _ _ _)
    · have hd2 : rowGet (stripAssets data).2 k = none :=
        stripAssets_get_of_none data _ ((rowGet_eq_none_iff _ _).2 hk)
      have hd3 : rowGet (rowSet (rowSet (stripAssets data).2 "updated_at" (Value.str now))
          "version" ver) k = none := by
        rw [rowGet_rowSet_ne _ _ _ _ hkv, rowGet_rowSet_ne _ _ _ _ hkua]
        exact hd2
      exact applyData_get_none _ _ _ hd3

/-- Witness for C3: the user's active campaign at version 3 is updated with a
budget field; version stays 3 and only budget and updated_at change. -/
theorem claim_C3_witness :
    dbSelect ⟨[[("id", Value.int 4), ("user_id", Value.str "A"),
        ("is_active", Value.bool true), ("version", Value.int 3),
        ("campaign_goal", Value.str "aw")]], 5, []⟩
      [("user_id", Value.str "A"), ("is_active", Value.bool true)] =
      [[("id", Value.int 4), ("user_id", Value.str "A"),
        ("is_active", Value.bool true), ("version", Value.int 3),
        ("campaign_goal", Value.str "aw")]] ∧
    ((handle_campaign_save ⟨[[("id", Value.int 4), ("user_id", Value.str "A"),
        ("is_active", Value.bool true), ("version", Value.int 3),
        ("campaign_goal", Value.str "aw")]], 5, []⟩ "A"
        [("budget_amount", Value.int 500)] Value.null "t2").1 =
      { success := true, campaign_id := some (Value.int 4), is_update := some true,
        is_new_version := some false, version := some (Value.int 3) } ∧
    (handle_campaign_save ⟨[[("id", Value.int 4), ("user_id", Value.str "A"),
        ("is_active", Value.bool true), ("version", Value.int 3),
        ("campaign_goal", Value.str "aw")]], 5, []⟩ "A"
        [("budget_amount", Value.int 500)] Value.null "t2").2.rows.length = 1 ∧
    ∃ r', r' ∈ (handle_campaign_save ⟨[[("id", Value.int 4), ("user_id", Value.str "A"),
        ("is_active", Value.bool true), ("version", Value.int 3),
        ("campaign_goal", Value.str "aw")]], 5, []⟩ "A"
        [("budget_amount", Value.int 500)] Value.null "t2").2.rows ∧
      rowGet r' "version" = rowGet [("id", Value.int 4), ("user_id", Value.str "A"),
        ("is_active", Value.bool true), ("version", Value.int 3),
        ("campaign_goal", Value.str "aw")] "version" ∧
      rowGet r' "updated_at" = some (Value.str "t2") ∧
      (∀ k, k ∉ ([("budget_amount", Value.int 500)] : Row).map Prod.fst →
        k ≠ "updated_at" →
        rowGet r' k = rowGet [("id", Value.int 4), ("user_id", Value.str "A"),
          ("is_active", Value.bool true), ("version", Value.int 3),
          ("campaign_goal", Value.str "aw")] k)) :=
  ⟨by decide,
    claim_C3 ⟨[[("id", Value.int 4), ("user_id", Value.str "A"),
        ("is_active", Value.bool true), ("version", Value.int 3),
        ("campaign_goal", Value.str "aw")]], 5, []⟩ "A"
      [("budget_amount", Value.int 500)] "t2"
      [("id", Value.int 4), ("user_id", Value.str "A"),
        ("is_active", Value.bool true), ("version", Value.int 3),
        ("campaign_goal", Value.str "aw")] []
      (Value.int 4) (Value.int 3)
      (by decide) (by decide) (by decide) rfl (by decide) (by decide)⟩

/-- C2: for every user with no active campaign, two consecutive fault-free
saves with no explicit id create exactly one record: the first call inserts
a row (returned with is_update false), the second call's active-campaign
lookup finds that row — stored with is_active = true — and updates it in
place (returned with is_update true and the same campaign_id); across both
calls the store grows by exactly one row, never two. -/
theorem claim_C2 (db : DB) (u : String) (data1 data2 : Row) (now1 now2 : String)
    (hact : dbSelect db [("user_id", Value.str u), ("is_active", Value.bool true)] = [])
    (hf : db.faults = [])
    (h1 : rowGet data1 "user_id" = none) (h2 : rowGet data1 "is_active" = none) :
    (handle_campaign_save db u data1 Value.null now1).1.success = true ∧
    (handle_campaign_save db u data1 Value.null now1).1.is_update = some false ∧
    (handle_campaign_save db u data1 Value.null now1).1.campaign_id =
      some (Value.int db.nextId) ∧
    (handle_campaign_save (handle_campaign_save db u data1 Value.null now1).2 u data2
        Value.null now2).1.success = true ∧
    (handle_campaign_save (handle_campaign_save db u data1 Value.null now1).2 u data2
        Value.null now2).1.is_update = some true ∧
    (handle_campaign_save (handle_campaign_save db u data1 Value.null now1).2 u data2
        Value.null now2).1.campaign_id = some (Value.int db.nextId) ∧
    (handle_campaign_save (handle_campaign_save db u data1 Value.null now1).2 u data2
        Value.null now2).2.rows.length = db.rows.length + 1 := by
  rw [handle_null, noIdSave_create db u _ now1 hact, createCampaign_nofault db u _ now1 hf]
  set nr := rowSet (newCampaignData u (stripAssets data1).2 now1) "id" (Value.int db.nextId)
    with hnr
  have g1 := stripAssets_get_of_none data1 _ h1
  have g2 := stripAssets_get_of_none data1 _ h2
  have hid1 : rowGet nr "id" = some (Value.int db.nextId) := by
    rw [hnr]
    exact rowGet_rowSet_self _ _ _
  have huser : rowGet nr "user_id" = some (Value.str u) := by
    rw [hnr, rowGet_rowSet_ne _ _ _ _ (by decide),
        newCampaignData_get_other u now1 _ _ (by decide) (by decide) g1]
    rfl
  have hisact : rowGet nr "is_active" = some (Value.bool true) := by
    rw [hnr, rowGet_rowSet_ne _ _ _ _ (by decide),
        newCampaignData_get_other u now1 _ _ (by decide) (by decide) g2]
    rfl
  have hact2 : dbSelect { db with rows := db.rows ++ [nr], nextId := db.nextId + 1 }
      [("user_id", Value.str u), ("is_active", Value.bool true)] = [nr] := by
    unfold dbSelect at hact ⊢
    simp only [List.filter_append, hact, List.nil_append]
    simp [rowMatches, huser, hisact]
  have hf1 : ({ db with rows := db.rows ++ [nr], nextId := db.nextId + 1 } : DB).faults =
      [] := hf
  have hmatch2 : rowMatches nr [("id", Value.int db.nextId), ("user_id", Value.str u)] =
      true := by
    simp [rowMatches, hid1, huser]
  have hne1 : ({ db with rows := db.rows ++ [nr], nextId := db.nextId + 1 } : DB).rows.filter
      (fun row => rowMatches row [("id", Value.int db.nextId), ("user_id", Value.str u)]) ≠
      [] := by
    refine List.ne_nil_of_mem (List.mem_filter.2 ⟨?_, hmatch2⟩)
    exact List.mem_append_right _ (List.mem_singleton.2 rfl)
  rw [handle_null, noIdSave_active _ u _ now2 _ [] hact2,
      activeUpdate_nofault _ u _ now2 _ (Value.int db.nextId) hid1 hf1 hne1]
  refine ⟨rfl, rfl, rfl, rfl, rfl, rfl, ?_⟩
  simp

/-- Witness for C2: the spec's scenario pair — a first save of a goal then a
second save of a budget — creating one record and then updating it. -/
theorem claim_C2_witness :
    dbSelect ⟨[], 1, []⟩ [("user_id", Value.str "A"), ("is_active", Value.bool true)] = [] ∧
    ((handle_campaign_save ⟨[], 1, []⟩ "A" [("campaign_goal", Value.str "awareness")]
        Value.null "t1").1.success = true ∧
    (handle_campaign_save ⟨[], 1, []⟩ "A" [("campaign_goal", Value.str "awareness")]
        Value.null "t1").1.is_update = some false ∧
    (handle_campaign_save ⟨[], 1, []⟩ "A" [("campaign_goal", Value.str "awareness")]
        Value.null "t1").1.campaign_id = some (Value.int 1) ∧
    (handle_campaign_save (handle_campaign_save ⟨[], 1, []⟩ "A"
        [("campaign_goal", Value.str "awareness")] Value.null "t1").2 "A"
        [("budget_amount", Value.int 500)] Value.null "t2").1.success = true ∧
    (handle_campaign_save (handle_campaign_save ⟨[], 1, []⟩ "A"
        [("campaign_goal", Value.str "awareness")] Value.null "t1").2 "A"
        [("budget_amount", Value.int 500)] Value.null "t2").1.is_update = some true ∧
    (handle_campaign_save (handle_campaign_save ⟨[], 1, []⟩ "A"
        [("campaign_goal", Value.str "awareness")] Value.null "t1").2 "A"
        [("budget_amount", Value.int 500)] Value.null "t2").1.campaign_id =
      some (Value.int 1) ∧
    (handle_campaign_save (handle_campaign_save ⟨[], 1, []⟩ "A"
        [("campaign_goal", Value.str "awareness")] Value.null "t1").2 "A"
        [("budget_amount", Value.int 500)] Value.null "t2").2.rows.length =
      ([] : List Row).length + 1) :=
  ⟨by decide,
    claim_C2 ⟨[], 1, []⟩ "A" [("campaign_goal", Value.str "awareness")]
      [("budget_amount", Value.int 500)] "t1" "t2"
      (by decide) rfl (by decide) (by decide)⟩

/-- C10 counterexample: when update_fields carries both a truthy 'assets'
value and a 'selected_asset_ids' key (with no valid explicit id), the
short-circuiting pop chain removes only 'assets'; 'selected_asset_ids'
stays in the payload and IS persisted to the created record — contradicting
the claim that the asset data is never persisted. -/
theorem claim_C10_counterexample :
    (handle_campaign_save ⟨[], 1, []⟩ "A"
        [("assets", Value.str "x"), ("selected_asset_ids", Value.str "y")]
        Value.null "t").1.success = true ∧
    ((handle_campaign_save ⟨[], 1, []⟩ "A"
        [("assets", Value.str "x"), ("selected_asset_ids", Value.str "y")]
        Value.null "t").2.rows.map fun r => rowGet r "selected_asset_ids") =
      [some (Value.str "y")] := by
  decide

/-- C10 (amended): when no valid explicit campaign_id is supplied and
update_fields does NOT carry both a truthy 'assets' value and a
'selected_asset_ids' key simultaneously, the asset data is removed from the
payload before the update or insert and is never persisted to any record
(every stored row's assets fields are either absent or inherited from a
pre-existing row), while the fault-free call still reports success with no
error and no warning message. When both keys are present with truthy
'assets', 'selected_asset_ids' survives the pop chain and is persisted —
see the counterexample. -/
theorem claim_C10_amended (db : DB) (u : String) (data : Row) (cid : Value) (now : String)
    (hguard : ((coerce_campaign_id cid).truthy && (coerce_campaign_id cid).isInt) = false)
    (hf : db.faults = [])
    (hnd : (data.map Prod.fst).Nodup)
    (hboth : ((rowGet data "assets").getD Value.null).truthy = false ∨
      rowGet data "selected_asset_ids" = none)
    (hbranch : dbSelect db [("user_id", Value.str u), ("is_active", Value.bool true)] = [] ∨
      ∃ r rest acid,
        dbSelect db [("user_id", Value.str u), ("is_active", Value.bool true)] = r :: rest ∧
        rowGet r "id" = some acid) :
    (handle_campaign_save db u data cid now).1.success = true ∧
    (handle_campaign_save db u data cid now).1.error = none ∧
    (handle_campaign_save db u data cid now).1.message = none ∧
    ∀ r' ∈ (handle_campaign_save db u data cid now).2.rows,
      (rowGet r' "assets" = none ∨
        ∃ r ∈ db.rows, rowGet r "assets" = rowGet r' "assets") ∧
      (rowGet r' "selected_asset_ids" = none ∨
        ∃ r ∈ db.rows, rowGet r "selected_asset_ids" = rowGet r' "selected_asset_ids") := by
  have hA : rowGet (stripAssets data).2 "assets" = none := stripAssets_get_assets data hnd
  have hS : rowGet (stripAssets data).2 "selected_asset_ids" = none := by
    rcases hboth with hb | hb
    · exact stripAssets_get_sel data hnd hb
    · exact stripAssets_get_of_none data _ hb
  rw [handle_guard_false db u data cid now hguard]
  rcases hbranch with hact | ⟨r, rest, acid, hact, hid⟩
  · rw [noIdSave_create db u _ now hact, createCampaign_nofault db u _ now hf]
    refine ⟨rfl, rfl, rfl, ?_⟩
    intro r' hr'
    rcases List.mem_append.1 hr' with hmem | hmem
    · exact ⟨Or.inr ⟨r', hmem, rfl⟩, Or.inr ⟨r', hmem, rfl⟩⟩
    · have hr2 : r' = rowSet (newCampaignData u (stripAssets data).2 now) "id"
          (Value.int db.nextId) := List.mem_singleton.1 hmem
      subst hr2
      constructor
      · left
        rw [rowGet_rowSet_ne _ _ _ _ (by decide),
            newCampaignData_get_other u now _ _ (by decide) (by decide) hA]
        rfl
      · left
        rw [rowGet_rowSet_ne _ _ _ _ (by decide),
            newCampaignData_get_other u now _ _ (by decide) (by decide) hS]
        rfl
  · have hrfil : r ∈ db.rows.filter
        (fun row => rowMatches row [("user_id", Value.str u), ("is_active", Value.bool true)]) := by
      rw [show db.rows.filter
          (fun row => rowMatches row [("user_id", Value.str u), ("is_active", Value.bool true)]) =
          r :: rest from hact]
      exact List.mem_cons_self r rest
    have hrmem := (List.mem_filter.1 hrfil).1
    have hrmatch := (List.mem_filter.1 hrfil).2
    have huser : rowGet r "user_id" = some (Value.str u) := by
      simp only [rowMatches, List.all_cons, List.all_nil, Bool.and_true, Bool.and_eq_true,
        beq_iff_eq] at hrmatch
      exact hrmatch.1
    have hrmatch2 : rowMatches r [("id", acid), ("user_id", Value.str u)] = true := by
      simp [rowMatches, hid, huser]
    have hne : db.rows.filter
        (fun row => rowMatches row [("id", acid), ("user_id", Value.str u)]) ≠ [] :=
      List.ne_nil_of_mem (List.mem_filter.2 ⟨hrmem, hrmatch2⟩)
    rw [noIdSave_active db u _ now r rest hact,
        activeUpdate_nofault db u _ now r acid hid hf hne]
    refine ⟨rfl, rfl, rfl, ?_⟩
    intro r' hr'
    rcases List.mem_map.1 hr' with ⟨row, hrow, heq⟩
    subst heq
    by_cases hm : rowMatches row [("id", acid), ("user_id", Value.str u)] = true
    · simp only [hm, if_true]
      have hd3a : rowGet (rowSet (rowSet (stripAssets data).2 "updated_at" (Value.str now))
          "version" ((rowGet r "version").getD (Value.int 1))) "assets" = none := by
        rw [rowGet_rowSet_ne _ _ _ _ (by decide), rowGet_rowSet_ne _ _ _ _ (by decide)]
        exact hA
      have hd3s : rowGet (rowSet (rowSet (stripAssets data).2 "updated_at" (Value.str now))
          "version" ((rowGet r "version").getD (Value.int 1))) "selected_asset_ids" = none := by
        rw [rowGet_rowSet_ne _ _ _ _ (by decide), rowGet_rowSet_ne _ _ _ _ (by decide)]
        exact hS
      exact ⟨Or.inr ⟨row, hrow, (applyData_get_none _ _ _ hd3a).symm⟩,
             Or.inr ⟨row, hrow, (applyData_get_none _ _ _ hd3s).symm⟩⟩
    · simp only [Bool.not_eq_true] at hm
      simp only [hm, Bool.false_eq_true, if_false]
      exact ⟨Or.inr ⟨row, hrow, rfl⟩, Or.inr ⟨row, hrow, rfl⟩⟩

/-- Witness for the amended C10: a payload with a truthy 'assets' value and
no 'selected_asset_ids' key, saved with no id into an empty store. -/
theorem claim_C10_amended_witness :
    ((Value.null.truthy && Value.null.isInt) = false ∧
      (((rowGet [("assets", Value.str "x"), ("campaign_goal", Value.str "g")]
          "assets").getD Value.null).truthy = false ∨
        rowGet [("assets", Value.str "x"), ("campaign_goal", Value.str "g")]
          "selected_asset_ids" = none)) ∧
    ((handle_campaign_save ⟨[], 1, []⟩ "A"
        [("assets", Value.str "x"), ("campaign_goal", Value.str "g")]
        Value.null "t").1.success = true ∧
    (handle_campaign_save ⟨[], 1, []⟩ "A"
        [("assets", Value.str "x"), ("campaign_goal", Value.str "g")]
        Value.null "t").1.error = none ∧
    (handle_campaign_save ⟨[], 1, []⟩ "A"
        [("assets", Value.str "x"), ("campaign_goal", Value.str "g")]
        Value.null "t").1.message = none ∧
    ∀ r' ∈ (handle_campaign_save ⟨[], 1, []⟩ "A"
        [("assets", Value.str "x"), ("campaign_goal", Value.str "g")]
        Value.null "t").2.rows,
      (rowGet r' "assets" = none ∨
        ∃ r ∈ (⟨[], 1, []⟩ : DB).rows, rowGet r "assets" = rowGet r' "assets") ∧
      (rowGet r' "selected_asset_ids" = none ∨
        ∃ r ∈ (⟨[], 1, []⟩ : DB).rows,
          rowGet r "selected_asset_ids" = rowGet r' "selected_asset_ids")) :=
  ⟨⟨by decide, by decide⟩,
    claim_C10_amended ⟨[], 1, []⟩ "A"
      [("assets", Value.str "x"), ("campaign_goal", Value.str "g")] Value.null "t"
      (by decide) rfl (by decide) (by decide) (Or.inl (by decide))⟩

end AutoCreate
